/-
Verification of the crasher-bot signal-detection and betting engine.

Shallow embedding of:
  * `crasher_bot/core/hotstreak.py`           (HotstreakTracker, analyze_window, check_chain_patterns)
  * `analysis/custom/backtest_simulator.py`   (HotstreakTracker mirror, SimulationState, BacktestEngine loop)
  * `crasher_bot/strategies/__init__.py`      (CustomState signal-activation / betting helpers)

Multipliers (Python floats) are modelled as rationals ℚ; all threshold literals
(0.65, 0.75, 2.0, 3.75, 7.16, 12, 25, 6.0) are exact rationals.  NumPy standard
deviation comparisons `std > c` are modelled as `variance > c^2` (population
variance, ddof = 0), which is equivalent since both sides are nonnegative.
Round counters (Python ints) are modelled as ℤ.
-/

import Mathlib

set_option autoImplicit false

/- Batteries marks the arithmetic on `Rat` as irreducible, which would keep
`decide` from evaluating the embedded engine on concrete inputs; restore
kernel reducibility (the kernel itself never depended on the attribute). -/
set_option allowUnsafeReducibility true in
attribute [semireducible] Rat.ofScientific Rat.mul Rat.inv Rat.add Rat.sub

namespace CrasherBot

/-- Count of window entries `≥ 2.0` (`sum(1 for m in window if m >= 2.0)`). -/
def countAbove2 (l : List ℚ) : ℕ := (l.filter (fun m => 2 ≤ m)).length

/-- `l[-k:]` for `k ≥ 1` (and on the call sites below `k ≤ l.length`). -/
def lastSlice (l : List ℚ) (k : ℕ) : List ℚ := l.drop (l.length - k)

/-- Python slice `l[-n:]`, including the `n = 0` quirk: `l[-0:]` is all of `l`. -/
def pySliceLast (l : List ℚ) (n : ℕ) : List ℚ :=
  if n = 0 then l else l.drop (l.length - n)

/-- `np.mean` (junk value `0` on `[]`, where NumPy yields NaN). -/
def npMean (l : List ℚ) : ℚ := l.sum / l.length

/-- Population variance, i.e. `np.std(l) ** 2` (junk `0` on `[]`). -/
def npVar (l : List ℚ) : ℚ := ((l.map (fun m => (m - npMean l) ^ 2)).sum) / l.length

/-- `np.max` (junk value `0` on `[]`, where NumPy raises). -/
def npMax (l : List ℚ) : ℚ := l.foldr max 0

/-- Mirror of the `current_hotstreak` / `last_hotstreak` record
(`dict` in `hotstreak.py`, dataclass `HotstreakInfo` in the backtest script). -/
structure HotstreakInfo where
  type : String
  length : ℕ
  average : ℚ
  start_round : ℤ
  multipliers : List ℚ
  deriving Repr, DecidableEq

/-- Mirror of `HotstreakTracker` mutable state (shared by `hotstreak.py` and the
backtest script; the backtest copy simply lacks `last_signal_round`, which no
logic reads). -/
structure Tracker where
  recent : List ℚ := []
  current_hotstreak : Option HotstreakInfo := none
  last_hotstreak : Option HotstreakInfo := none
  hotstreak_end_round : ℤ := 0
  current_round : ℤ := 0
  rounds_after_hotstreak : ℤ := 0
  cold_streak_occurred : Bool := false
  cold_count : ℕ := 0
  last_signal_round : ℤ := 0
  deriving Repr, DecidableEq

/-- `HotstreakTracker.__init__`. -/
def initTracker : Tracker := {}

/-- History append with eviction beyond `HISTORY_SIZE = 50`
(`self.recent.append(m); if len > 50: pop(0)`). -/
def pushRecent (recent : List ℚ) (m : ℚ) : List ℚ :=
  let r := recent ++ [m]
  if 50 < r.length then r.drop 1 else r

/-- One window size qualifies as a hotstreak: history is long enough and the
fraction of outcomes `≥ 2.0` over the last `ws` reaches `HOTSTREAK_WEAK_PCT = 0.65`. -/
def wsQualifies (recent : List ℚ) (ws : ℕ) : Prop :=
  ws ≤ recent.length ∧ (0.65 : ℚ) ≤ (countAbove2 (lastSlice recent ws) : ℚ) / (ws : ℚ)

instance (recent : List ℚ) (ws : ℕ) : Decidable (wsQualifies recent ws) := by
  unfold wsQualifies; infer_instance

/-- Unrolled `for ws in range(HOTSTREAK_MAX_WINDOW, HOTSTREAK_MIN_WINDOW - 1, -1)`:
first (largest) window size in 15‥10 that qualifies. -/
def findQualifying (recent : List ℚ) : Option ℕ :=
  if wsQualifies recent 15 then some 15
  else if wsQualifies recent 14 then some 14
  else if wsQualifies recent 13 then some 13
  else if wsQualifies recent 12 then some 12
  else if wsQualifies recent 11 then some 11
  else if wsQualifies recent 10 then some 10
  else none

/-- `HotstreakTracker._detect_hotstreak` (run after `recent`/`current_round`
have been updated for the new outcome). -/
def detectHotstreak (t : Tracker) : Tracker :=
  match findQualifying t.recent with
  | some ws =>
    let window := lastSlice t.recent ws
    let pct : ℚ := (countAbove2 window : ℚ) / (ws : ℚ)
    let avg : ℚ := window.sum / (ws : ℚ)
    let stype := if (0.75 : ℚ) ≤ pct then "strong" else "weak"
    match t.current_hotstreak with
    | none =>
      { t with current_hotstreak := some (HotstreakInfo.mk stype ws avg
          (t.current_round - (ws : ℤ) + 1) window) }
    | some old =>
      { t with current_hotstreak := some ({ old with type := stype, length := ws, average := avg, multipliers := window }) }
  | none =>
    match t.current_hotstreak with
    | some cur =>
      { t with last_hotstreak := some cur,
               hotstreak_end_round := t.current_round - 1,
               rounds_after_hotstreak := 0,
               cold_streak_occurred := false,
               cold_count := 0,
               current_hotstreak := none }
    | none => t

/-- `HotstreakTracker._track_cold` (`COLD_STREAK_LENGTH = 5`). -/
def trackCold (t : Tracker) (m : ℚ) : Tracker :=
  let t1 := if t.last_hotstreak.isSome then
      { t with rounds_after_hotstreak := t.current_round - t.hotstreak_end_round }
    else t
  if m < 2 then
    let c := t1.cold_count + 1
    { t1 with cold_count := c,
              cold_streak_occurred := if 5 ≤ c then true else t1.cold_streak_occurred }
  else
    { t1 with cold_count := 0 }

/-- `HotstreakTracker.add_multiplier`. -/
def addMultiplier (t : Tracker) (m : ℚ) : Tracker :=
  let t1 := { t with current_round := t.current_round + 1, recent := pushRecent t.recent m }
  trackCold (detectHotstreak t1) m

/-- `HotstreakTracker.in_hotstreak`. -/
def inHotstreak (t : Tracker) : Bool := t.current_hotstreak.isSome

/-- `HotstreakTracker.just_ended_hotstreak`. -/
def justEndedHotstreak (t : Tracker) : Bool :=
  t.last_hotstreak.isSome && t.rounds_after_hotstreak ≤ 15

namespace Core

/-- `HotstreakTracker.get_last_n` in `crasher_bot/core/hotstreak.py`:
`self.recent[-n:] if len(self.recent) >= n else []`. -/
def get_last_n (t : Tracker) (n : ℕ) : List ℚ :=
  if n ≤ t.recent.length then pySliceLast t.recent n else []

end Core

namespace Backtest

/-- `HotstreakTracker.get_last_n` in `analysis/custom/backtest_simulator.py`:
`self.recent[-n:] if len(self.recent) >= n else list(self.recent)`. -/
def get_last_n (t : Tracker) (n : ℕ) : List ℚ :=
  if n ≤ t.recent.length then pySliceLast t.recent n else t.recent

end Backtest

namespace Core

/-- `analyze_window` in `crasher_bot/core/hotstreak.py`.  Note: it performs NO
length check on `window`; `window_size` is only compared against `10` by the
pre_streak rule.  `std > 12` / `std > 25` are modelled as `var > 144` / `var > 625`. -/
def analyze_window (window : List ℚ) (window_size : ℕ) : List String :=
  let avg := npMean window
  let varr := npVar window
  let mx := npMax window
  let above_2x := countAbove2 window
  let s1 : List String :=
    if window_size = 10 ∧ (3.75 : ℚ) < avg ∧ 4 ≤ above_2x ∧ (144 : ℚ) < varr ∧ (7.16 : ℚ) < mx
    then ["pre_streak"] else []
  s1 ++ (if (625 : ℚ) < varr then ["high_stddev"] else [])

/-- `check_chain_patterns` in `crasher_bot/core/hotstreak.py`. -/
def check_chain_patterns (t : Tracker) : List String :=
  match t.last_hotstreak with
  | none => []
  | some ls =>
    let ra := t.rounds_after_hotstreak
    let s1 : List String :=
      if ra = 10 then
        let last_10 := get_last_n t 10
        if last_10.length = 10 then
          if (2 : ℚ) < npMean last_10 ∧ 4 < countAbove2 last_10 ∧ t.cold_streak_occurred = false
          then
            if ls.type = "strong" ∧ (6 : ℚ) < ls.average
            then ["dead_ass_chain"] else ["possible_chain"]
          else []
        else []
      else []
    s1 ++ (if ra = 15 ∧ t.cold_streak_occurred = false then ["rule_of_17"] else [])

end Core

namespace Backtest

/-- `analyze_window` in `analysis/custom/backtest_simulator.py`: identical to the
core version except for the leading `if len(window) < window_size: return signals`. -/
def analyze_window (window : List ℚ) (window_size : ℕ) : List String :=
  if window.length < window_size then [] else Core.analyze_window window window_size

/-- `check_chain_patterns` in `analysis/custom/backtest_simulator.py` (uses the
backtest `get_last_n`, then checks `len(last_10) == 10` just like the core copy). -/
def check_chain_patterns (t : Tracker) : List String :=
  match t.last_hotstreak with
  | none => []
  | some ls =>
    let ra := t.rounds_after_hotstreak
    let s1 : List String :=
      if ra = 10 then
        let last_10 := get_last_n t 10
        if last_10.length = 10 then
          if (2 : ℚ) < npMean last_10 ∧ 4 < countAbove2 last_10 ∧ t.cold_streak_occurred = false
          then
            if ls.type = "strong" ∧ (6 : ℚ) < ls.average
            then ["dead_ass_chain"] else ["possible_chain"]
          else []
        else []
      else []
    s1 ++ (if ra = 15 ∧ t.cold_streak_occurred = false then ["rule_of_17"] else [])

end Backtest

/-- Mirror of `CustomConfig` in `analysis/custom/backtest_simulator.py`
(the same parameter record configures `CustomState` in
`crasher_bot/strategies/__init__.py`, whose sharable fields carry the same
defaults). -/
structure CustomConfig where
  base_bet : ℚ := 1000
  auto_cashout : ℚ := 2
  max_consecutive_losses : ℕ := 10
  max_losses_in_window : ℕ := 7
  loss_check_window : ℕ := 10
  bet_multiplier : ℚ := 2
  stop_profit_count : ℕ := 0
  cooldown_after_win : ℕ := 0
  cooldown_after_loss : ℕ := 0
  activate_on_strong_hotstreak : Bool := true
  activate_on_weak_hotstreak : Bool := false
  activate_on_rule_of_17 : Bool := true
  activate_on_pre_streak_pattern : Bool := true
  activate_on_possible_chain : Bool := false
  activate_on_high_deviation_10 : Bool := false
  activate_on_high_deviation_15 : Bool := false
  signal_confirm_threshold : ℚ := 2
  signal_confirm_count : ℕ := 3
  signal_confirm_window : ℕ := 5
  signal_monitor_rounds : ℕ := 20
  deriving Repr, DecidableEq

/-- Mirror of the `SimulationState` dataclass in
`analysis/custom/backtest_simulator.py` (field for field; win/loss outcome
strings kept as `String`).  The betting/monitoring/cooldown fields coincide
with `CustomState` in `crasher_bot/strategies/__init__.py`. -/
structure SimulationState where
  config : CustomConfig
  current_bet : ℚ := 0
  consecutive_losses : ℕ := 0
  total_profit : ℚ := 0
  total_wins : ℕ := 0
  total_bets : ℕ := 0
  is_active : Bool := false
  waiting_for_result : Bool := false
  recent_outcomes : List String := []
  monitoring : Bool := false
  rounds_monitored : ℕ := 0
  monitoring_history : List ℚ := []
  pending_signal_reason : Option String := none
  cooldown_remaining : ℕ := 0
  cooldown_type : String := ""
  max_drawdown : ℚ := 0
  peak_profit : ℚ := 0
  win_streak : ℕ := 0
  max_win_streak : ℕ := 0
  loss_streak : ℕ := 0
  max_loss_streak : ℕ := 0
  signals_fired : List (ℤ × String) := []
  bets_placed : List (ℤ × ℚ × ℚ × String) := []
  deriving Repr, DecidableEq

/-- `SimulationState(config=cfg)` followed by `__post_init__`: the default
`current_bet = 0.0` is replaced by `config.base_bet`. -/
def initState (cfg : CustomConfig) : SimulationState :=
  { config := cfg, current_bet := cfg.base_bet }

namespace SimulationState

/-- `SimulationState.reset`. -/
def reset (s : SimulationState) : SimulationState :=
  { s with current_bet := s.config.base_bet, consecutive_losses := 0,
           waiting_for_result := false, is_active := false }

/-- `SimulationState.stop_monitoring`. -/
def stop_monitoring (s : SimulationState) : SimulationState :=
  { s with monitoring := false, rounds_monitored := 0,
           monitoring_history := [], pending_signal_reason := none }

/-- `SimulationState.full_reset`. -/
def full_reset (s : SimulationState) : SimulationState :=
  let s := s.reset
  let s := { s with total_wins := 0, recent_outcomes := [] }
  let s := s.stop_monitoring
  { s with cooldown_remaining := 0, cooldown_type := "" }

/-- `SimulationState.enter_cooldown_reset`. -/
def enter_cooldown_reset (s : SimulationState) : SimulationState :=
  let s := { s with current_bet := s.config.base_bet, consecutive_losses := 0,
                    waiting_for_result := false, is_active := false,
                    recent_outcomes := [] }
  s.stop_monitoring

/-- `SimulationState.start_monitoring`. -/
def start_monitoring (s : SimulationState) (reason : String) (initial : Option (List ℚ)) :
    SimulationState :=
  { s with monitoring := true, rounds_monitored := 0,
           monitoring_history := initial.getD [],
           pending_signal_reason := some reason }

/-- `SimulationState.in_cooldown`. -/
def in_cooldown (s : SimulationState) : Bool := 0 < s.cooldown_remaining

/-- `SimulationState.tick_cooldown`. -/
def tick_cooldown (s : SimulationState) : SimulationState :=
  if 0 < s.cooldown_remaining then { s with cooldown_remaining := s.cooldown_remaining - 1 }
  else s

/-- `SimulationState.start_win_cooldown`. -/
def start_win_cooldown (s : SimulationState) : SimulationState :=
  if 0 < s.config.cooldown_after_win then
    ({ s with cooldown_remaining := s.config.cooldown_after_win,
              cooldown_type := "win" }).stop_monitoring
  else s

/-- `SimulationState.start_loss_cooldown`. -/
def start_loss_cooldown (s : SimulationState) : SimulationState :=
  if 0 < s.config.cooldown_after_loss then
    ({ s with cooldown_remaining := s.config.cooldown_after_loss,
              cooldown_type := "loss" }).stop_monitoring
  else s

/-- `SimulationState.record_outcome`. -/
def record_outcome (s : SimulationState) (outcome : String) : SimulationState :=
  let r := s.recent_outcomes ++ [outcome]
  { s with recent_outcomes := if s.config.loss_check_window < r.length then r.drop 1 else r }

/-- `SimulationState.losses_in_window`. -/
def losses_in_window (s : SimulationState) : ℕ :=
  (s.recent_outcomes.filter (fun o => o = "loss")).length

/-- `SimulationState.should_stop_for_window_losses`. -/
def should_stop_for_window_losses (s : SimulationState) : Bool :=
  if s.recent_outcomes.length < s.config.loss_check_window then false
  else s.config.max_losses_in_window ≤ s.losses_in_window

/-- `SimulationState.should_stop_for_profit`. -/
def should_stop_for_profit (s : SimulationState) : Bool :=
  0 < s.config.stop_profit_count && s.config.stop_profit_count ≤ s.total_wins

/-- `SimulationState.next_bet` (also `CustomState.next_bet` and
`StrategyState.next_bet` in `crasher_bot/strategies/__init__.py`):
`base_bet` when no losses, else `base_bet * bet_multiplier ** consecutive_losses`. -/
def next_bet (s : SimulationState) : ℚ :=
  if s.consecutive_losses = 0 then s.config.base_bet
  else s.config.base_bet * s.config.bet_multiplier ^ s.consecutive_losses

/-- `SimulationState.should_activate_on_signal` (the dict in
`CustomState.should_activate_on_signal` of `crasher_bot/strategies/__init__.py`
is identical: `dead_ass_chain` is hard-wired to `False`, unknown names default
to `False`). -/
def should_activate_on_signal (s : SimulationState) (signal_name : String) : Bool :=
  if signal_name = "pre_streak" then s.config.activate_on_pre_streak_pattern
  else if signal_name = "rule_of_17" then s.config.activate_on_rule_of_17
  else if signal_name = "possible_chain" then s.config.activate_on_possible_chain
  else if signal_name = "dead_ass_chain" then false
  else false

/-- `SimulationState.should_activate_on_high_stddev`. -/
def should_activate_on_high_stddev (s : SimulationState) (window_size : ℕ) : Bool :=
  if window_size = 10 then s.config.activate_on_high_deviation_10
  else if window_size = 15 then s.config.activate_on_high_deviation_15
  else false

/-- `SimulationState.should_activate_on_hotstreak`. -/
def should_activate_on_hotstreak (s : SimulationState) (hotstreak_type : String) : Bool :=
  if hotstreak_type = "strong" then s.config.activate_on_strong_hotstreak
  else if hotstreak_type = "weak" then s.config.activate_on_weak_hotstreak
  else false

/-- `SimulationState.check_confirmation`. -/
def check_confirmation (s : SimulationState) (recent_mults : List ℚ) : Bool :=
  if recent_mults.length < s.config.signal_confirm_window then false
  else
    let window := pySliceLast recent_mults s.config.signal_confirm_window
    let above := (window.filter (fun m => s.config.signal_confirm_threshold ≤ m)).length
    s.config.signal_confirm_count ≤ above

/-- `SimulationState.update_stats`. -/
def update_stats (s : SimulationState) (profit : ℚ) : SimulationState :=
  let s := { s with total_profit := s.total_profit + profit }
  let s := if s.peak_profit < s.total_profit then { s with peak_profit := s.total_profit } else s
  let drawdown := s.peak_profit - s.total_profit
  if s.max_drawdown < drawdown then { s with max_drawdown := drawdown } else s

end SimulationState

namespace Backtest

open SimulationState

/-- `BacktestEngine._place_bet`. -/
def place_bet (s : SimulationState) (_round_num : ℤ) : SimulationState :=
  { s with is_active := true, current_bet := s.next_bet, waiting_for_result := true }

/-- The WIN bookkeeping block of `BacktestEngine._handle_result`, up to (and
including) `consecutive_losses = 0; current_bet = base_bet;
waiting_for_result = False`. -/
def winUpdate (s : SimulationState) (mult : ℚ) (round_num : ℤ) : SimulationState :=
  let bet_amount := s.current_bet
  let profit := bet_amount * (s.config.auto_cashout - 1)
  let s := { s with total_wins := s.total_wins + 1, total_bets := s.total_bets + 1 }
  let s := s.record_outcome "win"
  let s := s.update_stats profit
  let s := { s with bets_placed := s.bets_placed ++ [(round_num, bet_amount, mult, "win")] }
  let s := { s with win_streak := s.win_streak + 1, loss_streak := 0 }
  let s := if s.max_win_streak < s.win_streak then { s with max_win_streak := s.win_streak } else s
  { s with consecutive_losses := 0, current_bet := s.config.base_bet,
           waiting_for_result := false }

/-- The LOSS bookkeeping block of `BacktestEngine._handle_result`, up to (and
including) `consecutive_losses += 1`. -/
def lossUpdate (s : SimulationState) (mult : ℚ) (round_num : ℤ) : SimulationState :=
  let bet_amount := s.current_bet
  let s := { s with total_bets := s.total_bets + 1 }
  let s := s.record_outcome "loss"
  let s := s.update_stats (-bet_amount)
  let s := { s with bets_placed := s.bets_placed ++ [(round_num, bet_amount, mult, "loss")] }
  let s := { s with loss_streak := s.loss_streak + 1, win_streak := 0 }
  let s := if s.max_loss_streak < s.loss_streak then { s with max_loss_streak := s.loss_streak } else s
  { s with consecutive_losses := s.consecutive_losses + 1 }

/-- `BacktestEngine._handle_result`: returns the updated state and the profit
delta of the resolved bet. -/
def handle_result (s : SimulationState) (mult : ℚ) (round_num : ℤ) :
    SimulationState × ℚ :=
  let bet_amount := s.current_bet
  if s.config.auto_cashout ≤ mult then
    -- WIN
    let profit := bet_amount * (s.config.auto_cashout - 1)
    let s1 := winUpdate s mult round_num
    if s1.should_stop_for_profit then
      if 0 < s1.config.cooldown_after_win then
        (({ s1 with total_wins := 0 }).start_win_cooldown.enter_cooldown_reset, profit)
      else
        (s1.full_reset, profit)
    else
      (place_bet s1 round_num, profit)
  else
    -- LOSS
    let loss := bet_amount
    let s1 := lossUpdate s mult round_num
    if s1.config.max_consecutive_losses ≤ s1.consecutive_losses then
      if 0 < s1.config.cooldown_after_loss then
        (s1.start_loss_cooldown.enter_cooldown_reset, -loss)
      else
        (s1.full_reset, -loss)
    else if s1.should_stop_for_window_losses then
      if 0 < s1.config.cooldown_after_loss then
        (s1.start_loss_cooldown.enter_cooldown_reset, -loss)
      else
        (s1.full_reset, -loss)
    else
      ({ s1 with current_bet := s1.next_bet, waiting_for_result := true }, -loss)

/-- `BacktestEngine._check_hotstreak_activation`. -/
def check_hotstreak_activation (s : SimulationState) (t : Tracker) (round_num : ℤ) :
    SimulationState :=
  if s.is_active || s.waiting_for_result || s.in_cooldown then s
  else
    match t.current_hotstreak with
    | none => s
    | some hs =>
      if s.should_activate_on_hotstreak hs.type then
        let s := { s with signals_fired := s.signals_fired ++ [(round_num, hs.type ++ "_hotstreak")] }
        place_bet s.stop_monitoring round_num
      else s

/-- `BacktestEngine._signal_triggered`. -/
def signal_triggered (s : SimulationState) (t : Tracker) (reason : String) (round_num : ℤ) :
    SimulationState :=
  if s.is_active || s.waiting_for_result || s.in_cooldown then s
  else
    let recent := get_last_n t s.config.signal_confirm_window
    if s.check_confirmation recent then
      let s := { s with signals_fired := s.signals_fired ++ [(round_num, reason ++ " (confirmed)")] }
      place_bet s round_num
    else
      s.start_monitoring reason (some recent)

/-- `BacktestEngine._monitor_round`. -/
def monitor_round (s : SimulationState) (mult : ℚ) (_t : Tracker) (round_num : ℤ) :
    SimulationState :=
  let s := { s with rounds_monitored := s.rounds_monitored + 1,
                    monitoring_history := s.monitoring_history ++ [mult] }
  let confirmed : Bool :=
    if s.config.signal_confirm_window ≤ s.monitoring_history.length then
      let last_n := pySliceLast s.monitoring_history s.config.signal_confirm_window
      let above := (last_n.filter (fun m => s.config.signal_confirm_threshold ≤ m)).length
      s.config.signal_confirm_count ≤ above
    else false
  if confirmed && !s.is_active && !s.in_cooldown then
    let reason := s.pending_signal_reason.getD "signal"
    let s := { s with signals_fired := s.signals_fired ++ [(round_num, reason ++ " (confirmed)")] }
    place_bet s.stop_monitoring round_num
  else
    if s.config.signal_monitor_rounds ≤ s.rounds_monitored then s.stop_monitoring else s

/-- The per-window collection step inside `BacktestEngine._analyze_signals`:
filter `analyze_window` output through the activation flags, tagging
`high_stddev` with its window size. -/
def collectWindowSignals (s : SimulationState) (t : Tracker) (win_size : ℕ) (tag : String) :
    List String :=
  let window := get_last_n t win_size
  if window.length < win_size then []
  else
    (analyze_window window win_size).filterMap (fun sig =>
      if sig = "high_stddev" then
        if s.should_activate_on_high_stddev win_size then some (sig ++ tag) else none
      else
        if s.should_activate_on_signal sig then some sig else none)

/-- `BacktestEngine._analyze_signals`. -/
def analyze_signals (s : SimulationState) (t : Tracker) (round_num : ℤ) :
    SimulationState :=
  if s.is_active || inHotstreak t || s.in_cooldown then s
  else
    let trig1 := collectWindowSignals s t 10 "_w10" ++ collectWindowSignals s t 15 "_w15"
    let trig2 :=
      if justEndedHotstreak t then
        (check_chain_patterns t).filter (fun sig => s.should_activate_on_signal sig)
      else []
    let triggered := trig1 ++ trig2
    if triggered ≠ [] && !s.is_active then
      signal_triggered s t (String.intercalate ", " triggered) round_num
    else s

/-- The body of the per-round loop in `BacktestEngine.run` (the aggregation of
`all_profits` / `total_wagered` feeds only the report, not the state machine). -/
def btStep (t : Tracker) (s : SimulationState) (round_num : ℤ) (mult : ℚ) :
    Tracker × SimulationState :=
  let t := addMultiplier t mult
  let s := if s.in_cooldown then s.tick_cooldown else s
  let s := if s.waiting_for_result then (handle_result s mult round_num).1 else s
  let s := if s.monitoring && !s.is_active && !s.in_cooldown then monitor_round s mult t round_num else s
  let s := if !s.in_cooldown then check_hotstreak_activation s t round_num else s
  let s := if !s.is_active && !s.waiting_for_result && !s.in_cooldown then analyze_signals s t round_num else s
  (t, s)

/-- Iterated `btStep` over a session's multipliers, numbering rounds from
`round_num` upward (mirrors `for i, mult in enumerate(session.multipliers)`). -/
def btRun (t : Tracker) (s : SimulationState) (round_num : ℤ) : List ℚ → Tracker × SimulationState
  | [] => (t, s)
  | m :: ms =>
    let p := btStep t s round_num m
    btRun p.1 p.2 (round_num + 1) ms

end Backtest

/-! ### Concrete instances used by counterexamples and witnesses -/

/-- A tracker that has seen the single outcome `1.5`. -/
def trackerOne : Tracker := addMultiplier initTracker (3/2)

/-- A tracker state whose rolling history holds three outcomes. -/
def trackerThree : Tracker := { recent := [1, 2, 3] }

/-- A tracker that has seen five consecutive cold outcomes (`1.0 < 2.0` five
times), so its cold-streak flag is set. -/
def trackerCold : Tracker := List.foldl addMultiplier initTracker [1, 1, 1, 1, 1]

/-- A tracker state remembering a weak ended hotstreak, ten rounds after its
end, with a warm last-10 window and no cold streak. -/
def trackerChain : Tracker :=
  { recent := [3, 3, 3, 1, 3, 3, 1, 3, 3, 3],
    last_hotstreak := some { type := "weak", length := 10, average := 5/2,
                             start_round := 1, multipliers := [] },
    hotstreak_end_round := 10,
    current_round := 20,
    rounds_after_hotstreak := 10,
    cold_streak_occurred := false }

/-- A tracker that has seen fourteen outcomes of `2.5`: one more winner makes
both the 10-outcome and the 15-outcome windows qualify as hotstreaks. -/
def trackerFourteen : Tracker :=
  List.foldl addMultiplier initTracker (List.replicate 14 (5/2 : ℚ))

/-- Scenario-D configuration: `stop_profit_count = 2`, `cooldown_after_win = 5`
(all other parameters at their `CustomConfig` defaults, in particular
`base_bet = 1000`, `auto_cashout = 2.0`, strong-hotstreak activation on). -/
def cfgScenarioD : CustomConfig := { stop_profit_count := 2, cooldown_after_win := 5 }

/-- The backtest state after replaying `k` outcomes of `2.5` under
`cfgScenarioD` from a fresh tracker and state. -/
def scenarioD (k : ℕ) : SimulationState :=
  (Backtest.btRun initTracker (initState cfgScenarioD) 1 (List.replicate k (5/2 : ℚ))).2

/-- A mid-cycle betting state: bet outstanding after two consecutive losses
under `base_bet = 1000`, `bet_multiplier = 2.0` (martingale example P4). -/
def stateTwoLosses : SimulationState :=
  { config := {}, current_bet := 4000, consecutive_losses := 2,
    is_active := true, waiting_for_result := true }

/-- A betting state waiting on a bet with no losses so far. -/
def stateFresh : SimulationState :=
  { config := cfgScenarioD, current_bet := 1000, total_wins := 1,
    is_active := true, waiting_for_result := true }

/-- A betting state with three consecutive losses against
`max_consecutive_losses = 4` (stop-loss example P5). -/
def stateThreeLosses : SimulationState :=
  { config := { max_consecutive_losses := 4 }, current_bet := 8000,
    consecutive_losses := 3, is_active := true, waiting_for_result := true }

/-- The invariant behind claim C8: the loss streak never reaches the configured
maximum, and it is zero whenever no bet is outstanding. -/
def InvC8 (s : SimulationState) : Prop :=
  s.consecutive_losses < s.config.max_consecutive_losses ∧
  (s.waiting_for_result = false → s.consecutive_losses = 0)

/-! ### Frame lemmas for the betting-state operations -/

section FrameLemmas

variable (s : SimulationState) (o : String) (p : ℚ) (mult : ℚ) (r : ℤ)

@[simp] theorem record_outcome_config : (s.record_outcome o).config = s.config := rfl

@[simp] theorem record_outcome_current_bet : (s.record_outcome o).current_bet = s.current_bet := rfl

@[simp] theorem record_outcome_losses :
    (s.record_outcome o).consecutive_losses = s.consecutive_losses := rfl

@[simp] theorem record_outcome_waiting :
    (s.record_outcome o).waiting_for_result = s.waiting_for_result := rfl

@[simp] theorem record_outcome_active : (s.record_outcome o).is_active = s.is_active := rfl

@[simp] theorem record_outcome_monitoring : (s.record_outcome o).monitoring = s.monitoring := rfl

@[simp] theorem record_outcome_cooldown :
    (s.record_outcome o).cooldown_remaining = s.cooldown_remaining := rfl

@[simp] theorem record_outcome_wins : (s.record_outcome o).total_wins = s.total_wins := rfl

@[simp] theorem record_outcome_profit : (s.record_outcome o).total_profit = s.total_profit := rfl

@[simp] theorem update_stats_config : (s.update_stats p).config = s.config := by
  simp only [SimulationState.update_stats]; split <;> split <;> rfl

@[simp] theorem update_stats_current_bet : (s.update_stats p).current_bet = s.current_bet := by
  simp only [SimulationState.update_stats]; split <;> split <;> rfl

@[simp] theorem update_stats_losses :
    (s.update_stats p).consecutive_losses = s.consecutive_losses := by
  simp only [SimulationState.update_stats]; split <;> split <;> rfl

@[simp] theorem update_stats_waiting :
    (s.update_stats p).waiting_for_result = s.waiting_for_result := by
  simp only [SimulationState.update_stats]; split <;> split <;> rfl

@[simp] theorem update_stats_active : (s.update_stats p).is_active = s.is_active := by
  simp only [SimulationState.update_stats]; split <;> split <;> rfl

@[simp] theorem update_stats_monitoring : (s.update_stats p).monitoring = s.monitoring := by
  simp only [SimulationState.update_stats]; split <;> split <;> rfl

@[simp] theorem update_stats_cooldown :
    (s.update_stats p).cooldown_remaining = s.cooldown_remaining := by
  simp only [SimulationState.update_stats]; split <;> split <;> rfl

@[simp] theorem update_stats_wins : (s.update_stats p).total_wins = s.total_wins := by
  simp only [SimulationState.update_stats]; split <;> split <;> rfl

@[simp] theorem update_stats_recent :
    (s.update_stats p).recent_outcomes = s.recent_outcomes := by
  simp only [SimulationState.update_stats]; split <;> split <;> rfl

@[simp] theorem update_stats_profit : (s.update_stats p).total_profit = s.total_profit + p := by
  simp only [SimulationState.update_stats]; split <;> split <;> rfl

@[simp] theorem stop_monitoring_config : s.stop_monitoring.config = s.config := rfl

@[simp] theorem stop_monitoring_current_bet : s.stop_monitoring.current_bet = s.current_bet := rfl

@[simp] theorem stop_monitoring_losses :
    s.stop_monitoring.consecutive_losses = s.consecutive_losses := rfl

@[simp] theorem stop_monitoring_waiting :
    s.stop_monitoring.waiting_for_result = s.waiting_for_result := rfl

@[simp] theorem stop_monitoring_active : s.stop_monitoring.is_active = s.is_active := rfl

@[simp] theorem stop_monitoring_monitoring : s.stop_monitoring.monitoring = false := rfl

@[simp] theorem stop_monitoring_cooldown :
    s.stop_monitoring.cooldown_remaining = s.cooldown_remaining := rfl

@[simp] theorem stop_monitoring_wins : s.stop_monitoring.total_wins = s.total_wins := rfl

@[simp] theorem stop_monitoring_profit : s.stop_monitoring.total_profit = s.total_profit := rfl

@[simp] theorem start_monitoring_losses (reason : String) (init : Option (List ℚ)) :
    (s.start_monitoring reason init).consecutive_losses = s.consecutive_losses := rfl

@[simp] theorem start_monitoring_waiting (reason : String) (init : Option (List ℚ)) :
    (s.start_monitoring reason init).waiting_for_result = s.waiting_for_result := rfl

@[simp] theorem start_monitoring_config (reason : String) (init : Option (List ℚ)) :
    (s.start_monitoring reason init).config = s.config := rfl

@[simp] theorem tick_cooldown_config : s.tick_cooldown.config = s.config := by
  simp only [SimulationState.tick_cooldown]; split <;> rfl

@[simp] theorem tick_cooldown_losses :
    s.tick_cooldown.consecutive_losses = s.consecutive_losses := by
  simp only [SimulationState.tick_cooldown]; split <;> rfl

@[simp] theorem tick_cooldown_waiting :
    s.tick_cooldown.waiting_for_result = s.waiting_for_result := by
  simp only [SimulationState.tick_cooldown]; split <;> rfl

@[simp] theorem tick_cooldown_active : s.tick_cooldown.is_active = s.is_active := by
  simp only [SimulationState.tick_cooldown]; split <;> rfl

@[simp] theorem tick_cooldown_monitoring : s.tick_cooldown.monitoring = s.monitoring := by
  simp only [SimulationState.tick_cooldown]; split <;> rfl

theorem tick_cooldown_cooldown :
    s.tick_cooldown.cooldown_remaining = s.cooldown_remaining - 1 := by
  simp only [SimulationState.tick_cooldown]; split <;> [rfl; omega]

@[simp] theorem reset_config : s.reset.config = s.config := rfl

@[simp] theorem reset_current_bet : s.reset.current_bet = s.config.base_bet := rfl

@[simp] theorem reset_losses : s.reset.consecutive_losses = 0 := rfl

@[simp] theorem reset_waiting : s.reset.waiting_for_result = false := rfl

@[simp] theorem reset_active : s.reset.is_active = false := rfl

@[simp] theorem full_reset_config : s.full_reset.config = s.config := rfl

@[simp] theorem full_reset_current_bet : s.full_reset.current_bet = s.config.base_bet := rfl

@[simp] theorem full_reset_losses : s.full_reset.consecutive_losses = 0 := rfl

@[simp] theorem full_reset_waiting : s.full_reset.waiting_for_result = false := rfl

@[simp] theorem full_reset_active : s.full_reset.is_active = false := rfl

@[simp] theorem full_reset_monitoring : s.full_reset.monitoring = false := rfl

@[simp] theorem full_reset_cooldown : s.full_reset.cooldown_remaining = 0 := rfl

@[simp] theorem full_reset_wins : s.full_reset.total_wins = 0 := rfl

@[simp] theorem full_reset_profit : s.full_reset.total_profit = s.total_profit := rfl

@[simp] theorem enter_cooldown_reset_config : s.enter_cooldown_reset.config = s.config := rfl

@[simp] theorem enter_cooldown_reset_current_bet :
    s.enter_cooldown_reset.current_bet = s.config.base_bet := rfl

@[simp] theorem enter_cooldown_reset_losses : s.enter_cooldown_reset.consecutive_losses = 0 := rfl

@[simp] theorem enter_cooldown_reset_waiting :
    s.enter_cooldown_reset.waiting_for_result = false := rfl

@[simp] theorem enter_cooldown_reset_active : s.enter_cooldown_reset.is_active = false := rfl

@[simp] theorem enter_cooldown_reset_monitoring : s.enter_cooldown_reset.monitoring = false := rfl

@[simp] theorem enter_cooldown_reset_cooldown :
    s.enter_cooldown_reset.cooldown_remaining = s.cooldown_remaining := rfl

@[simp] theorem enter_cooldown_reset_wins : s.enter_cooldown_reset.total_wins = s.total_wins := rfl

@[simp] theorem enter_cooldown_reset_profit :
    s.enter_cooldown_reset.total_profit = s.total_profit := rfl

@[simp] theorem start_win_cooldown_config : s.start_win_cooldown.config = s.config := by
  simp only [SimulationState.start_win_cooldown]; split <;> rfl

@[simp] theorem start_win_cooldown_losses :
    s.start_win_cooldown.consecutive_losses = s.consecutive_losses := by
  simp only [SimulationState.start_win_cooldown]; split <;> rfl

@[simp] theorem start_win_cooldown_waiting :
    s.start_win_cooldown.waiting_for_result = s.waiting_for_result := by
  simp only [SimulationState.start_win_cooldown]; split <;> rfl

@[simp] theorem start_win_cooldown_wins : s.start_win_cooldown.total_wins = s.total_wins := by
  simp only [SimulationState.start_win_cooldown]; split <;> rfl

@[simp] theorem start_win_cooldown_profit :
    s.start_win_cooldown.total_profit = s.total_profit := by
  simp only [SimulationState.start_win_cooldown]; split <;> rfl

theorem start_win_cooldown_cooldown (h : 0 < s.config.cooldown_after_win) :
    s.start_win_cooldown.cooldown_remaining = s.config.cooldown_after_win := by
  simp only [SimulationState.start_win_cooldown, if_pos h]; rfl

@[simp] theorem start_loss_cooldown_config : s.start_loss_cooldown.config = s.config := by
  simp only [SimulationState.start_loss_cooldown]; split <;> rfl

@[simp] theorem start_loss_cooldown_losses :
    s.start_loss_cooldown.consecutive_losses = s.consecutive_losses := by
  simp only [SimulationState.start_loss_cooldown]; split <;> rfl

@[simp] theorem start_loss_cooldown_waiting :
    s.start_loss_cooldown.waiting_for_result = s.waiting_for_result := by
  simp only [SimulationState.start_loss_cooldown]; split <;> rfl

@[simp] theorem place_bet_config (rn : ℤ) : (Backtest.place_bet s rn).config = s.config := rfl

@[simp] theorem place_bet_losses (rn : ℤ) :
    (Backtest.place_bet s rn).consecutive_losses = s.consecutive_losses := rfl

@[simp] theorem place_bet_waiting (rn : ℤ) :
    (Backtest.place_bet s rn).waiting_for_result = true := rfl

@[simp] theorem place_bet_active (rn : ℤ) : (Backtest.place_bet s rn).is_active = true := rfl

@[simp] theorem place_bet_current_bet (rn : ℤ) :
    (Backtest.place_bet s rn).current_bet = s.next_bet := rfl

/-- `next_bet` always recomputes from the base bet: the `consecutive_losses = 0`
fast path agrees with `base_bet * bet_multiplier ^ 0`. -/
theorem next_bet_eq : s.next_bet = s.config.base_bet * s.config.bet_multiplier ^ s.consecutive_losses := by
  simp only [SimulationState.next_bet]
  split
  · next h => rw [h, pow_zero, mul_one]
  · rfl

@[simp] theorem winUpdate_config : (Backtest.winUpdate s mult r).config = s.config := by
  simp only [Backtest.winUpdate]; split <;> simp

@[simp] theorem winUpdate_losses : (Backtest.winUpdate s mult r).consecutive_losses = 0 := by
  simp only [Backtest.winUpdate]

@[simp] theorem winUpdate_current_bet :
    (Backtest.winUpdate s mult r).current_bet = s.config.base_bet := by
  simp only [Backtest.winUpdate]; split <;> simp

@[simp] theorem winUpdate_waiting : (Backtest.winUpdate s mult r).waiting_for_result = false := by
  simp only [Backtest.winUpdate]

@[simp] theorem winUpdate_active : (Backtest.winUpdate s mult r).is_active = s.is_active := by
  simp only [Backtest.winUpdate]; split <;> simp

@[simp] theorem winUpdate_monitoring :
    (Backtest.winUpdate s mult r).monitoring = s.monitoring := by
  simp only [Backtest.winUpdate]; split <;> simp

@[simp] theorem winUpdate_cooldown :
    (Backtest.winUpdate s mult r).cooldown_remaining = s.cooldown_remaining := by
  simp only [Backtest.winUpdate]; split <;> simp

@[simp] theorem winUpdate_wins :
    (Backtest.winUpdate s mult r).total_wins = s.total_wins + 1 := by
  simp only [Backtest.winUpdate]; split <;> simp

@[simp] theorem winUpdate_profit :
    (Backtest.winUpdate s mult r).total_profit
      = s.total_profit + s.current_bet * (s.config.auto_cashout - 1) := by
  simp only [Backtest.winUpdate]; split <;> simp

@[simp] theorem lossUpdate_config : (Backtest.lossUpdate s mult r).config = s.config := by
  simp only [Backtest.lossUpdate]; split <;> simp

@[simp] theorem lossUpdate_losses :
    (Backtest.lossUpdate s mult r).consecutive_losses = s.consecutive_losses + 1 := by
  simp only [Backtest.lossUpdate]; split <;> simp

@[simp] theorem lossUpdate_current_bet :
    (Backtest.lossUpdate s mult r).current_bet = s.current_bet := by
  simp only [Backtest.lossUpdate]; split <;> simp

@[simp] theorem lossUpdate_waiting :
    (Backtest.lossUpdate s mult r).waiting_for_result = s.waiting_for_result := by
  simp only [Backtest.lossUpdate]; split <;> simp

@[simp] theorem lossUpdate_active : (Backtest.lossUpdate s mult r).is_active = s.is_active := by
  simp only [Backtest.lossUpdate]; split <;> simp

@[simp] theorem lossUpdate_monitoring :
    (Backtest.lossUpdate s mult r).monitoring = s.monitoring := by
  simp only [Backtest.lossUpdate]; split <;> simp

@[simp] theorem lossUpdate_cooldown :
    (Backtest.lossUpdate s mult r).cooldown_remaining = s.cooldown_remaining := by
  simp only [Backtest.lossUpdate]; split <;> simp

@[simp] theorem lossUpdate_wins : (Backtest.lossUpdate s mult r).total_wins = s.total_wins := by
  simp only [Backtest.lossUpdate]; split <;> simp

end FrameLemmas

/-! ### C1 — `get_last_n` slice semantics -/

/-- **C1 (counterexample).**  The claim states that whenever the rolling
history holds fewer than `n` outcomes, `get_last_n n` returns the entire
history as a partial slice.  The core tracker (`crasher_bot/core/hotstreak.py`)
refutes this: after a single outcome `1.5`, `get_last_n 2` returns the empty
list, not the one-element history. -/
theorem C1_counterexample :
    trackerOne.recent = [3/2] ∧
    Core.get_last_n trackerOne 2 = [] ∧
    Core.get_last_n trackerOne 2 ≠ trackerOne.recent := by decide

/-- **C1 (amended).**  For `n ≥ 1`: when the history holds at least `n`
outcomes, both `get_last_n` variants return exactly the last `n` outcomes in
arrival order; when it holds fewer, the backtest variant
(`backtest_simulator.py`) returns the entire history while the core variant
(`hotstreak.py`) returns the empty list. -/
theorem C1_get_last_n_semantics (t : Tracker) (n : ℕ) (hn : 1 ≤ n) :
    (n ≤ t.recent.length →
      Core.get_last_n t n = t.recent.drop (t.recent.length - n) ∧
      Backtest.get_last_n t n = t.recent.drop (t.recent.length - n) ∧
      (Core.get_last_n t n).length = n ∧
      t.recent.take (t.recent.length - n) ++ Core.get_last_n t n = t.recent) ∧
    (t.recent.length < n →
      Core.get_last_n t n = [] ∧ Backtest.get_last_n t n = t.recent) := by
  constructor
  · intro hle
    have hn0 : n ≠ 0 := by omega
    have hcore : Core.get_last_n t n = t.recent.drop (t.recent.length - n) := by
      simp [Core.get_last_n, pySliceLast, hle, hn0]
    have hbt : Backtest.get_last_n t n = t.recent.drop (t.recent.length - n) := by
      simp [Backtest.get_last_n, pySliceLast, hle, hn0]
    refine ⟨hcore, hbt, ?_, ?_⟩
    · rw [hcore, List.length_drop]; omega
    · rw [hcore]; exact List.take_append_drop _ _
  · intro hlt
    have h : ¬ n ≤ t.recent.length := by omega
    exact ⟨by simp [Core.get_last_n, h], by simp [Backtest.get_last_n, h]⟩

/-- **C1 (witness).**  Instantiating the amended statement on a three-outcome
history with `n = 2`. -/
theorem C1_witness :
    Core.get_last_n trackerThree 2 = [2, 3] ∧
    Backtest.get_last_n trackerThree 2 = [2, 3] := by
  have h := (C1_get_last_n_semantics trackerThree 2 (by decide)).1 (by decide)
  exact ⟨h.1.trans (by decide), h.2.1.trans (by decide)⟩

/-! ### C6 — `analyze_window` length guard -/

/-- **C6 (counterexample).**  The claim states `analyze_window` returns the
empty signal set whenever the window length differs from the `windowSize`
argument.  The core version (`crasher_bot/core/hotstreak.py`) has no length
check at all: a two-element window passed with `window_size = 10` still emits
`high_stddev` (its population std `29.5` exceeds `25`). -/
theorem C6_counterexample :
    List.length [(1 : ℚ), 60] ≠ 10 ∧
    Core.analyze_window [1, 60] 10 = ["high_stddev"] := by decide

/-- **C6 (amended).**  Only the backtest copy of `analyze_window`
(`backtest_simulator.py`) guards the window length: for every window shorter
than `window_size` it returns the empty signal list (the core copy in
`hotstreak.py` performs no such check and can emit signals there). -/
theorem C6_analyze_window_requires_full_window (window : List ℚ) (window_size : ℕ)
    (h : window.length < window_size) :
    Backtest.analyze_window window window_size = [] := by
  simp [Backtest.analyze_window, h]

/-- **C6 (witness).**  The backtest `analyze_window` on the same short window
returns no signals. -/
theorem C6_witness : Backtest.analyze_window [1, 60] 10 = [] :=
  C6_analyze_window_requires_full_window [1, 60] 10 (by decide)

/-! ### C4 — pure exponential martingale -/

/-- **C4.**  The next bet is always recomputed in full from the base bet:
`next_bet = baseBet * betMultiplier ^ consecutiveLosses`.  On a losing outcome
that trips no stop condition (i.e. the cycle continues, `waitingForResult`
stays true) the loss counter becomes `k + 1` and the next bet is
`baseBet * betMultiplier ^ (k + 1)`; on a winning outcome the bet returns to
`baseBet` on every exit path. -/
theorem C4_martingale_recompute (s : SimulationState) (mult : ℚ) (r : ℤ) :
    s.next_bet = s.config.base_bet * s.config.bet_multiplier ^ s.consecutive_losses ∧
    (mult < s.config.auto_cashout →
      (Backtest.handle_result s mult r).1.waiting_for_result = true →
      (Backtest.handle_result s mult r).1.consecutive_losses = s.consecutive_losses + 1 ∧
      (Backtest.handle_result s mult r).1.current_bet =
        s.config.base_bet * s.config.bet_multiplier ^ (s.consecutive_losses + 1)) ∧
    (s.config.auto_cashout ≤ mult →
      (Backtest.handle_result s mult r).1.current_bet = s.config.base_bet) := by
  refine ⟨next_bet_eq s, ?_, ?_⟩
  · intro hlt hwait
    have hne : ¬ s.config.auto_cashout ≤ mult := not_le.mpr hlt
    simp only [Backtest.handle_result, if_neg hne] at hwait ⊢
    split_ifs at hwait ⊢ with h1 h2 h3 h4
    · simp at hwait
    · simp at hwait
    · simp at hwait
    · simp at hwait
    · constructor
      · simp
      · show (Backtest.lossUpdate s mult r).next_bet = _
        rw [next_bet_eq]
        simp [pow_succ]
  · intro hge
    simp only [Backtest.handle_result, if_pos hge]
    split_ifs with h1 h2
    · simp
    · simp
    · show (Backtest.place_bet (Backtest.winUpdate s mult r) r).current_bet = _
      rw [place_bet_current_bet, next_bet_eq]
      simp

/-- **C4 (witness).**  With `baseBet = 1000`, `betMultiplier = 2.0`: a third
consecutive loss (outcome `1.5` below the `2.0` cashout) makes the next bet
`8000 = 1000·2³`, and a win (outcome `2.5`) resets the bet to `1000`. -/
theorem C4_witness :
    (Backtest.handle_result stateTwoLosses (3/2) 20).1.current_bet = 8000 ∧
    (Backtest.handle_result stateFresh (5/2) 20).1.current_bet = 1000 := by
  constructor
  · have h := ((C4_martingale_recompute stateTwoLosses (3/2) 20).2.1 (by decide) (by decide)).2
    exact h.trans (by decide)
  · have h := (C4_martingale_recompute stateFresh (5/2) 20).2.2 (by decide)
    exact h.trans (by decide)

/-! ### C3 — hotstreak detection prefers the largest qualifying window -/

/-- `_track_cold` does not modify the rolling history. -/
theorem trackCold_recent (t : Tracker) (m : ℚ) : (trackCold t m).recent = t.recent := by
  simp only [trackCold]; split <;> split <;> rfl

/-- `_track_cold` never touches the active hotstreak. -/
theorem trackCold_current (t : Tracker) (m : ℚ) :
    (trackCold t m).current_hotstreak = t.current_hotstreak := by
  simp only [trackCold]
  split <;> split <;> rfl

/-- `_detect_hotstreak` does not modify the rolling history. -/
theorem detect_recent (t : Tracker) : (detectHotstreak t).recent = t.recent := by
  rcases hq : findQualifying t.recent with _ | ws <;>
    rcases hc : t.current_hotstreak with _ | cur <;>
      simp only [detectHotstreak, hq, hc]

/-- After `add_multiplier`, the rolling history is the pushed history. -/
theorem addMultiplier_recent (t : Tracker) (m : ℚ) :
    (addMultiplier t m).recent = pushRecent t.recent m := by
  simp only [addMultiplier]
  rw [trackCold_recent, detect_recent]

/-- The 15-down-to-10 scan: if some window size in 10‥15 qualifies, the scan
returns a qualifying size and every larger size up to 15 fails. -/
theorem findQualifying_spec (recent : List ℚ) (ws : ℕ) (h10 : 10 ≤ ws) (h15 : ws ≤ 15)
    (hq : wsQualifies recent ws) :
    ∃ ws₀, findQualifying recent = some ws₀ ∧ 10 ≤ ws₀ ∧ ws₀ ≤ 15 ∧
      wsQualifies recent ws₀ ∧
      ∀ ws', ws₀ < ws' → ws' ≤ 15 → ¬ wsQualifies recent ws' := by
  simp only [findQualifying]
  split_ifs with q15 q14 q13 q12 q11 q10
  · exact ⟨15, rfl, by omega, by omega, q15, fun ws' h1 h2 => by omega⟩
  · refine ⟨14, rfl, by omega, by omega, q14, fun ws' h1 h2 hq' => ?_⟩
    have : ws' = 15 := by omega
    subst this; exact q15 hq'
  · refine ⟨13, rfl, by omega, by omega, q13, fun ws' h1 h2 hq' => ?_⟩
    interval_cases ws'
    · exact q14 hq'
    · exact q15 hq'
  · refine ⟨12, rfl, by omega, by omega, q12, fun ws' h1 h2 hq' => ?_⟩
    interval_cases ws'
    · exact q13 hq'
    · exact q14 hq'
    · exact q15 hq'
  · refine ⟨11, rfl, by omega, by omega, q11, fun ws' h1 h2 hq' => ?_⟩
    interval_cases ws'
    · exact q12 hq'
    · exact q13 hq'
    · exact q14 hq'
    · exact q15 hq'
  · refine ⟨10, rfl, by omega, by omega, q10, fun ws' h1 h2 hq' => ?_⟩
    interval_cases ws'
    · exact q11 hq'
    · exact q12 hq'
    · exact q13 hq'
    · exact q14 hq'
    · exact q15 hq'
  · exfalso
    interval_cases ws
    · exact q10 hq
    · exact q11 hq
    · exact q12 hq
    · exact q13 hq
    · exact q14 hq
    · exact q15 hq

/-- When the scan finds a window, `_detect_hotstreak` publishes (creating or
updating in place) a hotstreak whose length, window sample, average and
strong/weak classification all come from that window. -/
theorem detect_found (t : Tracker) (ws₀ : ℕ) (hq : findQualifying t.recent = some ws₀) :
    ∃ hs, (detectHotstreak t).current_hotstreak = some hs ∧
      hs.length = ws₀ ∧
      hs.multipliers = lastSlice t.recent ws₀ ∧
      hs.average = (lastSlice t.recent ws₀).sum / (ws₀ : ℚ) ∧
      hs.type = (if (0.75:ℚ) ≤ (countAbove2 (lastSlice t.recent ws₀) : ℚ) / (ws₀:ℚ)
                 then "strong" else "weak") := by
  rcases hc : t.current_hotstreak with _ | old <;>
    simp only [detectHotstreak, hq, hc] <;>
      exact ⟨_, rfl, rfl, rfl, rfl, rfl⟩

/-- **C3.**  After every update on which some window of size 10‥15 qualifies
(`pct ≥ 0.65`), the tracker holds an active hotstreak taken from the largest
qualifying window: its length qualifies, no larger size up to 15 qualifies,
its sample and average are those of the last `length` outcomes, and it is
classified `strong` exactly when that window's fraction of outcomes ≥ 2.0
reaches 0.75 (and `weak` otherwise). -/
theorem C3_hotstreak_window_preference (t : Tracker) (m : ℚ) (ws : ℕ)
    (h10 : 10 ≤ ws) (h15 : ws ≤ 15)
    (hq : wsQualifies (addMultiplier t m).recent ws) :
    ∃ hs, (addMultiplier t m).current_hotstreak = some hs ∧
      10 ≤ hs.length ∧ hs.length ≤ 15 ∧
      wsQualifies (addMultiplier t m).recent hs.length ∧
      (∀ ws', hs.length < ws' → ws' ≤ 15 → ¬ wsQualifies (addMultiplier t m).recent ws') ∧
      hs.multipliers = lastSlice (addMultiplier t m).recent hs.length ∧
      hs.average = (lastSlice (addMultiplier t m).recent hs.length).sum / (hs.length : ℚ) ∧
      (hs.type = "strong" ↔
        (0.75:ℚ) ≤ (countAbove2 (lastSlice (addMultiplier t m).recent hs.length) : ℚ)
          / (hs.length : ℚ)) ∧
      (hs.type = "strong" ∨ hs.type = "weak") := by
  have hrec : (addMultiplier t m).recent = pushRecent t.recent m := addMultiplier_recent t m
  rw [hrec] at hq ⊢
  obtain ⟨ws₀, hf, hw10, hw15, hq₀, hmax⟩ := findQualifying_spec _ ws h10 h15 hq
  set t1 : Tracker :=
    { t with current_round := t.current_round + 1, recent := pushRecent t.recent m } with ht1
  have hf1 : findQualifying t1.recent = some ws₀ := hf
  obtain ⟨hs, hcur, hlen, hmult, havg, htype⟩ := detect_found t1 ws₀ hf1
  have hcur' : (addMultiplier t m).current_hotstreak = some hs := by
    simp only [addMultiplier]
    rw [trackCold_current]
    exact hcur
  refine ⟨hs, hcur', ?_, ?_, ?_, ?_, ?_, ?_, ?_, ?_⟩
  · omega
  · omega
  · rw [hlen]; exact hq₀
  · rw [hlen]; exact hmax
  · rw [hlen]; exact hmult
  · rw [hlen]; exact havg
  · rw [hlen, htype]
    split
    · next hp => simp [hp]
    · next hp => simp [hp]
  · rw [htype]; split
    · left; rfl
    · right; rfl

set_option maxRecDepth 100000 in
/-- **C3 (witness).**  Fifteen straight outcomes of `2.5` make both the
10-window and the 15-window qualify; the tracker reports the 15-length
hotstreak. -/
theorem C3_witness :
    wsQualifies (addMultiplier trackerFourteen (5/2)).recent 10 ∧
    wsQualifies (addMultiplier trackerFourteen (5/2)).recent 15 ∧
    ∃ hs, (addMultiplier trackerFourteen (5/2)).current_hotstreak = some hs ∧
      hs.length = 15 := by
  refine ⟨by decide, by decide, ?_⟩
  obtain ⟨hs, hcur, -, hle, -, hmax, -⟩ :=
    C3_hotstreak_window_preference trackerFourteen (5/2) 15 (by decide) (by decide) (by decide)
  refine ⟨hs, hcur, ?_⟩
  by_contra hne
  exact hmax 15 (by omega) (le_refl 15) (by decide)

/-! ### C5 — chain patterns fire only at exact post-hotstreak offsets -/

/-- **C5.**  With a remembered ended hotstreak and at least ten outcomes of
history, `check_chain_patterns` emits a chain signal only at
`rounds_after_hotstreak = 10` (a `dead_ass_chain` when the ended hotstreak was
strong with average above 6.0, else a `possible_chain`, and only when the last
ten outcomes average above 2.0 with more than four of them ≥ 2.0 and no cold
streak occurred) or at `rounds_after_hotstreak = 15` (a `rule_of_17`, cold flag
permitting); at every other offset it emits nothing. -/
theorem C5_chain_patterns_edge_triggered (t : Tracker) (ls : HotstreakInfo)
    (h : t.last_hotstreak = some ls) (hlen : 10 ≤ t.recent.length) :
    (t.rounds_after_hotstreak = 10 →
      (((2:ℚ) < npMean (Core.get_last_n t 10) ∧ 4 < countAbove2 (Core.get_last_n t 10) ∧
          t.cold_streak_occurred = false) →
        Core.check_chain_patterns t =
          (if ls.type = "strong" ∧ (6:ℚ) < ls.average
           then ["dead_ass_chain"] else ["possible_chain"])) ∧
      (¬((2:ℚ) < npMean (Core.get_last_n t 10) ∧ 4 < countAbove2 (Core.get_last_n t 10) ∧
          t.cold_streak_occurred = false) →
        Core.check_chain_patterns t = [])) ∧
    (t.rounds_after_hotstreak = 15 →
      Core.check_chain_patterns t =
        (if t.cold_streak_occurred = false then ["rule_of_17"] else [])) ∧
    (t.rounds_after_hotstreak ≠ 10 → t.rounds_after_hotstreak ≠ 15 →
      Core.check_chain_patterns t = []) := by
  have hl10 : (Core.get_last_n t 10).length = 10 := by
    have : Core.get_last_n t 10 = t.recent.drop (t.recent.length - 10) := by
      simp [Core.get_last_n, pySliceLast, hlen]
    rw [this, List.length_drop]; omega
  refine ⟨?_, ?_, ?_⟩
  · intro hra
    have hne15 : ¬ (t.rounds_after_hotstreak = 15 ∧ t.cold_streak_occurred = false) := by
      rintro ⟨h15, _⟩; rw [hra] at h15; exact absurd h15 (by decide)
    constructor
    · intro hcond
      simp only [Core.check_chain_patterns, h, if_pos hra, if_pos hl10, if_pos hcond,
        if_neg hne15, List.append_nil]
    · intro hcond
      simp only [Core.check_chain_patterns, h, if_pos hra, if_pos hl10, if_neg hcond,
        if_neg hne15, List.append_nil]
  · intro hra
    have hne10 : ¬ t.rounds_after_hotstreak = 10 := by rw [hra]; decide
    simp only [Core.check_chain_patterns, h, if_neg hne10, List.nil_append, hra]
    simp
  · intro h10 h15
    have hne15 : ¬ (t.rounds_after_hotstreak = 15 ∧ t.cold_streak_occurred = false) := by
      rintro ⟨hx, _⟩; exact h15 hx
    simp only [Core.check_chain_patterns, h, if_neg h10, if_neg hne15, List.append_nil]

/-- **C5 (witness).**  A tracker remembering a weak ended hotstreak, exactly
ten rounds after it ended, with a warm last-10 window (mean 2.6, eight of ten
outcomes ≥ 2.0) and no cold streak, emits exactly `possible_chain`. -/
theorem C5_witness : Core.check_chain_patterns trackerChain = ["possible_chain"] := by
  have h := ((C5_chain_patterns_edge_triggered trackerChain
      { type := "weak", length := 10, average := 5/2, start_round := 1, multipliers := [] }
      (by decide) (by decide)).1 (by decide)).1 (by decide)
  exact h.trans (by decide)

/-! ### C7 — the cold-streak flag is sticky until a hotstreak ends -/

/-- The cold flag after `_track_cold`: set when the running cold count reaches
5, otherwise carried over; an outcome ≥ 2.0 only resets the count. -/
theorem trackCold_cold (t : Tracker) (m : ℚ) :
    (trackCold t m).cold_streak_occurred =
      if m < 2 then (if 5 ≤ t.cold_count + 1 then true else t.cold_streak_occurred)
      else t.cold_streak_occurred := by
  simp only [trackCold]
  split <;> split <;> rfl

/-- `_detect_hotstreak` does exactly one of three things: keep/refresh an
active hotstreak (cold state untouched), end the active hotstreak (cold flag
and count cleared), or change nothing. -/
theorem detect_hotstreak_cases (t : Tracker) :
    (∃ ws, findQualifying t.recent = some ws ∧
      (detectHotstreak t).current_hotstreak.isSome = true ∧
      (detectHotstreak t).cold_streak_occurred = t.cold_streak_occurred ∧
      (detectHotstreak t).cold_count = t.cold_count) ∨
    (findQualifying t.recent = none ∧ t.current_hotstreak.isSome = true ∧
      (detectHotstreak t).current_hotstreak = none ∧
      (detectHotstreak t).cold_streak_occurred = false ∧
      (detectHotstreak t).cold_count = 0) ∨
    (findQualifying t.recent = none ∧ t.current_hotstreak = none ∧ detectHotstreak t = t) := by
  rcases hq : findQualifying t.recent with _ | ws
  · rcases hc : t.current_hotstreak with _ | cur
    · right; right
      refine ⟨rfl, rfl, ?_⟩
      simp only [detectHotstreak, hq, hc]
    · right; left
      refine ⟨rfl, rfl, ?_, ?_, ?_⟩ <;> simp only [detectHotstreak, hq, hc]
  · left
    refine ⟨ws, rfl, ?_, ?_, ?_⟩ <;>
      simp only [detectHotstreak, hq] <;> rcases t.current_hotstreak with _ | cur <;> rfl

/-- **C7.**  Once `cold_streak_occurred` is set, an `add_multiplier` step
clears it exactly when that step ends the active hotstreak; in every other
case — including steps whose outcome is ≥ 2.0, which reset only the running
cold count — the flag remains `true`. -/
theorem C7_cold_flag_sticky (t : Tracker) (m : ℚ) (h : t.cold_streak_occurred = true) :
    ((addMultiplier t m).cold_streak_occurred = false ↔
      t.current_hotstreak.isSome = true ∧ (addMultiplier t m).current_hotstreak = none) := by
  simp only [addMultiplier]
  set t1 : Tracker :=
    { t with current_round := t.current_round + 1, recent := pushRecent t.recent m } with ht1
  have hcur : t1.current_hotstreak = t.current_hotstreak := rfl
  have hcold : t1.cold_streak_occurred = true := h
  have hcc : t1.cold_count = t.cold_count := rfl
  rw [trackCold_current, trackCold_cold]
  rcases detect_hotstreak_cases t1 with ⟨ws, hq, hsome, hflag, hcount⟩ |
    ⟨hq, hsome, hnone, hflag, hcount⟩ | ⟨hq, hnone, heq⟩
  · -- a window qualifies: hotstreak continues or starts, flag untouched
    rw [hflag, hcold, hcount]
    constructor
    · intro hx
      exfalso; revert hx; split <;> (try split) <;> simp
    · rintro ⟨-, hx⟩
      rw [hx] at hsome; exact absurd hsome (by simp)
  · -- the hotstreak just ended: flag cleared, cold count restarted at ≤ 1 < 5
    rw [hflag, hnone, hcount]
    rw [hcur] at hsome
    constructor
    · intro _; exact ⟨hsome, rfl⟩
    · intro _
      split
      · split
        · next hx => omega
        · rfl
      · rfl
  · -- no hotstreak active and none detected: tracker state unchanged, flag stays
    rw [heq, hcold, hcc]
    constructor
    · intro hx
      exfalso; revert hx; split <;> (try split) <;> simp
    · rintro ⟨hx, -⟩
      rw [hcur] at hx; rw [hnone] at hx; exact absurd hx (by simp)

/-- **C7 (witness).**  A tracker whose flag was set by five cold outcomes keeps
the flag across a `2.5` outcome (no hotstreak ends on that step). -/
theorem C7_witness :
    trackerCold.cold_streak_occurred = true ∧
    (addMultiplier trackerCold (5/2)).cold_streak_occurred = true := by
  refine ⟨by decide, ?_⟩
  have h := C7_cold_flag_sticky trackerCold (5/2) (by decide)
  rcases Bool.eq_false_or_eq_true ((addMultiplier trackerCold (5/2)).cold_streak_occurred)
    with hx | hx
  · exact hx
  · exact absurd (h.mp hx).1 (by decide)

/-! ### C8 — no bet is outstanding at or beyond the loss limit -/

/-- A state whose configuration, loss counter and (monotone) waiting flag
relate to another invariant state inherits the invariant. -/
theorem InvC8_of_frame {s s' : SimulationState} (h : InvC8 s)
    (hcfg : s'.config = s.config)
    (hl : s'.consecutive_losses = s.consecutive_losses)
    (hw : s'.waiting_for_result = s.waiting_for_result ∨ s'.waiting_for_result = true) :
    InvC8 s' := by
  obtain ⟨h1, h2⟩ := h
  constructor
  · rw [hcfg, hl]; exact h1
  · intro hwf
    rcases hw with hw | hw
    · rw [hl]; exact h2 (hw ▸ hwf)
    · rw [hwf] at hw; cases hw

/-- `_monitor_round` keeps the configuration and loss counter, and only ever
turns the waiting flag on (by placing a bet). -/
theorem monitor_round_frame (s : SimulationState) (mult : ℚ) (t : Tracker) (r : ℤ) :
    (Backtest.monitor_round s mult t r).config = s.config ∧
    (Backtest.monitor_round s mult t r).consecutive_losses = s.consecutive_losses ∧
    ((Backtest.monitor_round s mult t r).waiting_for_result = s.waiting_for_result ∨
      (Backtest.monitor_round s mult t r).waiting_for_result = true) := by
  simp only [Backtest.monitor_round]
  split_ifs <;> simp

/-- `_check_hotstreak_activation` keeps the configuration and loss counter, and
only ever turns the waiting flag on. -/
theorem check_hotstreak_activation_frame (s : SimulationState) (t : Tracker) (r : ℤ) :
    (Backtest.check_hotstreak_activation s t r).config = s.config ∧
    (Backtest.check_hotstreak_activation s t r).consecutive_losses = s.consecutive_losses ∧
    ((Backtest.check_hotstreak_activation s t r).waiting_for_result = s.waiting_for_result ∨
      (Backtest.check_hotstreak_activation s t r).waiting_for_result = true) := by
  simp only [Backtest.check_hotstreak_activation]
  split_ifs <;> try simp
  rcases t.current_hotstreak with _ | hs
  · simp
  · by_cases hact : s.should_activate_on_hotstreak hs.type = true <;> simp [hact]

/-- `_signal_triggered` keeps the configuration and loss counter, and only
ever turns the waiting flag on. -/
theorem signal_triggered_frame (s : SimulationState) (t : Tracker) (reason : String) (r : ℤ) :
    (Backtest.signal_triggered s t reason r).config = s.config ∧
    (Backtest.signal_triggered s t reason r).consecutive_losses = s.consecutive_losses ∧
    ((Backtest.signal_triggered s t reason r).waiting_for_result = s.waiting_for_result ∨
      (Backtest.signal_triggered s t reason r).waiting_for_result = true) := by
  simp only [Backtest.signal_triggered]
  split_ifs <;> simp

/-- `_analyze_signals` keeps the configuration and loss counter, and only ever
turns the waiting flag on. -/
theorem analyze_signals_frame (s : SimulationState) (t : Tracker) (r : ℤ) :
    (Backtest.analyze_signals s t r).config = s.config ∧
    (Backtest.analyze_signals s t r).consecutive_losses = s.consecutive_losses ∧
    ((Backtest.analyze_signals s t r).waiting_for_result = s.waiting_for_result ∨
      (Backtest.analyze_signals s t r).waiting_for_result = true) := by
  simp only [Backtest.analyze_signals]
  split_ifs <;> first
    | exact signal_triggered_frame s t _ r
    | simp

/-- The invariant is stable under a conditional step. -/
theorem inv_ite {c : Prop} [Decidable c] {a b : SimulationState}
    (ha : InvC8 a) (hb : InvC8 b) : InvC8 (if c then a else b) := by
  split <;> assumption

theorem inv_tick {s : SimulationState} (h : InvC8 s) : InvC8 s.tick_cooldown :=
  InvC8_of_frame h (by simp) (by simp) (Or.inl (by simp))

/-- `_handle_result` preserves the invariant: wins and stops zero the counter,
and the martingale continuation is guarded by the max-losses check. -/
theorem inv_handle {s : SimulationState} (mult : ℚ) (r : ℤ) (h : InvC8 s) :
    InvC8 (Backtest.handle_result s mult r).1 := by
  have hmax : 1 ≤ s.config.max_consecutive_losses := by
    obtain ⟨h1, -⟩ := h; omega
  simp only [Backtest.handle_result]
  split_ifs with hwin h1 h2 h3 h4
  · exact ⟨by simp; omega, by simp⟩
  · exact ⟨by simp; omega, by simp⟩
  · exact ⟨by simp; omega, by simp⟩
  · exact ⟨by simp; omega, by simp⟩
  · exact ⟨by simp; omega, by simp⟩
  · exact ⟨by simp; omega, by simp⟩
  · exact ⟨by simp; omega, by simp⟩
  · -- loss, continue: the max-losses guard failed, so losses + 1 < max
    simp only [lossUpdate_config, lossUpdate_losses, not_le] at h3
    exact ⟨by simp; omega, by simp⟩

theorem inv_monitor {s : SimulationState} (mult : ℚ) (t : Tracker) (r : ℤ) (h : InvC8 s) :
    InvC8 (Backtest.monitor_round s mult t r) :=
  InvC8_of_frame h (monitor_round_frame s mult t r).1 (monitor_round_frame s mult t r).2.1
    (monitor_round_frame s mult t r).2.2

theorem inv_activation {s : SimulationState} (t : Tracker) (r : ℤ) (h : InvC8 s) :
    InvC8 (Backtest.check_hotstreak_activation s t r) :=
  InvC8_of_frame h (check_hotstreak_activation_frame s t r).1
    (check_hotstreak_activation_frame s t r).2.1 (check_hotstreak_activation_frame s t r).2.2

theorem inv_analyze {s : SimulationState} (t : Tracker) (r : ℤ) (h : InvC8 s) :
    InvC8 (Backtest.analyze_signals s t r) :=
  InvC8_of_frame h (analyze_signals_frame s t r).1 (analyze_signals_frame s t r).2.1
    (analyze_signals_frame s t r).2.2

/-- One full simulation round preserves the invariant. -/
theorem btStep_inv (t : Tracker) (s : SimulationState) (r : ℤ) (m : ℚ) (h : InvC8 s) :
    InvC8 (Backtest.btStep t s r m).2 := by
  simp only [Backtest.btStep]
  have h2 : InvC8 (if s.in_cooldown = true then s.tick_cooldown else s) :=
    inv_ite (inv_tick h) h
  set s2 := (if s.in_cooldown = true then s.tick_cooldown else s) with hs2
  have h3 : InvC8 (if s2.waiting_for_result = true
      then (Backtest.handle_result s2 m r).1 else s2) :=
    inv_ite (inv_handle m r h2) h2
  set s3 := (if s2.waiting_for_result = true
      then (Backtest.handle_result s2 m r).1 else s2) with hs3
  have h4 : InvC8 (if (s3.monitoring && !s3.is_active && !s3.in_cooldown) = true
      then Backtest.monitor_round s3 m (addMultiplier t m) r else s3) :=
    inv_ite (inv_monitor m (addMultiplier t m) r h3) h3
  set s4 := (if (s3.monitoring && !s3.is_active && !s3.in_cooldown) = true
      then Backtest.monitor_round s3 m (addMultiplier t m) r else s3) with hs4
  have h5 : InvC8 (if (!s4.in_cooldown) = true
      then Backtest.check_hotstreak_activation s4 (addMultiplier t m) r else s4) :=
    inv_ite (inv_activation (addMultiplier t m) r h4) h4
  set s5 := (if (!s4.in_cooldown) = true
      then Backtest.check_hotstreak_activation s4 (addMultiplier t m) r else s4) with hs5
  exact inv_ite (inv_analyze (addMultiplier t m) r h5) h5

/-- **C8.**  The invariant "`waitingForResult` implies
`consecutiveLosses < maxConsecutiveLosses` (and idle states carry a zero loss
counter)" holds in the initial state of every configuration with a positive
loss limit and is preserved by every simulation round; hence in every
reachable state a bet is outstanding only while the loss streak is strictly
below the configured maximum, and no bet beyond it is ever placed. -/
theorem C8_no_bet_at_loss_limit (t : Tracker) (s : SimulationState) (r : ℤ) (m : ℚ)
    (hinv : InvC8 s) :
    InvC8 (Backtest.btStep t s r m).2 ∧
    ((Backtest.btStep t s r m).2.waiting_for_result = true →
      (Backtest.btStep t s r m).2.consecutive_losses
        < (Backtest.btStep t s r m).2.config.max_consecutive_losses) ∧
    (∀ cfg : CustomConfig, 1 ≤ cfg.max_consecutive_losses → InvC8 (initState cfg)) := by
  have h1 := btStep_inv t s r m hinv
  refine ⟨h1, fun _ => h1.1, fun cfg hc => ⟨?_, fun _ => rfl⟩⟩
  simpa [initState] using hc

/-- **C8 (witness).**  With `maxConsecutiveLosses = 4` and three losses on the
books, a fourth losing outcome (`1.0` below the `2.0` cashout) leaves the
strategy with no outstanding bet and out of `Active`, and the invariant still
holds. -/
theorem C8_witness :
    InvC8 stateThreeLosses ∧
    InvC8 (Backtest.btStep initTracker stateThreeLosses 4 1).2 ∧
    (Backtest.btStep initTracker stateThreeLosses 4 1).2.waiting_for_result = false ∧
    (Backtest.btStep initTracker stateThreeLosses 4 1).2.is_active = false := by
  have hinv : InvC8 stateThreeLosses := ⟨by decide, fun h => absurd h (by decide)⟩
  exact ⟨hinv, (C8_no_bet_at_loss_limit initTracker stateThreeLosses 4 1 hinv).1,
    by decide, by decide⟩

/-! ### C2 — stop-on-profit win cooldown -/

/-- While idle (no bet outstanding, not active, not monitoring) with at least
two rounds of cooldown left, a simulation round only ticks the cooldown. -/
theorem btStep_cooldown_idle (t : Tracker) (s : SimulationState) (r : ℤ) (m : ℚ)
    (hw : s.waiting_for_result = false) (ha : s.is_active = false)
    (hm : s.monitoring = false) (hc : 2 ≤ s.cooldown_remaining) :
    (Backtest.btStep t s r m).2 = s.tick_cooldown := by
  have hin : s.in_cooldown = true := by
    simp [SimulationState.in_cooldown]; omega
  have htc : s.tick_cooldown.cooldown_remaining = s.cooldown_remaining - 1 :=
    tick_cooldown_cooldown s
  have hin2 : s.tick_cooldown.in_cooldown = true := by
    simp [SimulationState.in_cooldown, htc]; omega
  simp only [Backtest.btStep]
  simp [hw, ha, hm, hin, hin2]

/-- While idle in cooldown, strictly fewer outcomes than the remaining
cooldown leave the strategy idle: no bet is placed at any point of the run. -/
theorem cooldown_idle_run (ms : List ℚ) : ∀ (t : Tracker) (s : SimulationState) (r : ℤ),
    s.waiting_for_result = false → s.is_active = false → s.monitoring = false →
    ms.length < s.cooldown_remaining →
    (Backtest.btRun t s r ms).2.waiting_for_result = false ∧
    (Backtest.btRun t s r ms).2.is_active = false ∧
    (Backtest.btRun t s r ms).2.monitoring = false ∧
    (Backtest.btRun t s r ms).2.cooldown_remaining = s.cooldown_remaining - ms.length := by
  induction ms with
  | nil =>
    intro t s r hw ha hm hlen
    exact ⟨hw, ha, hm, by simp [Backtest.btRun]⟩
  | cons m ms ih =>
    intro t s r hw ha hm hlen
    simp only [List.length_cons] at hlen
    have hc2 : 2 ≤ s.cooldown_remaining := by omega
    have hstep := btStep_cooldown_idle t s r m hw ha hm hc2
    simp only [Backtest.btRun, hstep]
    have h := ih (Backtest.btStep t s r m).1 s.tick_cooldown (r + 1)
      (by simp [hw]) (by simp [ha]) (by simp [hm])
      (by rw [tick_cooldown_cooldown]; omega)
    refine ⟨h.1, h.2.1, h.2.2.1, ?_⟩
    rw [h.2.2.2, tick_cooldown_cooldown]
    simp only [List.length_cons]
    omega

set_option maxRecDepth 400000 in
/-- **C2 (counterexample).**  Replaying seventeen outcomes of `2.5` under
Scenario D (`stopProfitCount = 2`, `cooldownAfterWin = 5`): the second win
lands while processing round 12, after which `totalWins = 0` and
`cooldownRemaining = 5` as claimed — but a bet IS placed while processing
round 17, i.e. during the fifth of the "following cooldownAfterWin outcomes,"
because the cooldown tick precedes the activation checks within a round.  The
claim's "no bet is placed during the next 5 outcomes" is therefore false: only
rounds 13–16 are bet-free. -/
theorem C2_counterexample :
    (scenarioD 12).total_wins = 0 ∧
    (scenarioD 12).cooldown_remaining = 5 ∧
    (scenarioD 12).bets_placed.map (fun b => (b.1, b.2.2.2)) = [(11, "win"), (12, "win")] ∧
    (scenarioD 16).waiting_for_result = false ∧
    (scenarioD 16).is_active = false ∧
    (scenarioD 17).waiting_for_result = true ∧
    (scenarioD 17).is_active = true := by decide

/-- **C2 (amended).**  When `stopProfitCount > 0`, `cooldownAfterWin > 0` and a
win brings `totalWins` up to `stopProfitCount`, `_handle_result` resets the win
counter to 0, sets `cooldownRemaining = cooldownAfterWin`, credits the win's
profit to the preserved `totalProfit`, and leaves the strategy idle; and no bet
is placed during the following `cooldownAfterWin − 1` outcomes (a bet may be
placed again while the `cooldownAfterWin`-th outcome is processed, when the
cooldown expires). -/
theorem C2_stop_profit_win_cooldown (s : SimulationState) (mult : ℚ) (r : ℤ)
    (hsp : 0 < s.config.stop_profit_count)
    (hcw : 0 < s.config.cooldown_after_win)
    (hwin : s.config.auto_cashout ≤ mult)
    (hcount : s.config.stop_profit_count ≤ s.total_wins + 1) :
    (Backtest.handle_result s mult r).1.total_wins = 0 ∧
    (Backtest.handle_result s mult r).1.cooldown_remaining = s.config.cooldown_after_win ∧
    (Backtest.handle_result s mult r).1.total_profit
      = s.total_profit + s.current_bet * (s.config.auto_cashout - 1) ∧
    (Backtest.handle_result s mult r).1.waiting_for_result = false ∧
    (Backtest.handle_result s mult r).1.is_active = false ∧
    (Backtest.handle_result s mult r).1.monitoring = false ∧
    (∀ (t : Tracker) (r' : ℤ) (ms : List ℚ) (j : ℕ), j ≤ ms.length →
      ms.length < s.config.cooldown_after_win →
      (Backtest.btRun t (Backtest.handle_result s mult r).1 r' (ms.take j)).2.waiting_for_result
        = false) := by
  have hstop : (Backtest.winUpdate s mult r).should_stop_for_profit = true := by
    simp [SimulationState.should_stop_for_profit, hsp, hcount]
  have hcw' : 0 < (Backtest.winUpdate s mult r).config.cooldown_after_win := by
    simp [hcw]
  have heq : (Backtest.handle_result s mult r).1
      = ({ Backtest.winUpdate s mult r with
            total_wins := 0 }).start_win_cooldown.enter_cooldown_reset := by
    simp only [Backtest.handle_result, if_pos hwin, hstop, if_pos hcw', if_true]
  have hcd : (Backtest.handle_result s mult r).1.cooldown_remaining
      = s.config.cooldown_after_win := by
    rw [heq, enter_cooldown_reset_cooldown, start_win_cooldown_cooldown _ (by simpa using hcw)]
    simp
  refine ⟨?_, hcd, ?_, ?_, ?_, ?_, ?_⟩
  · rw [heq]; simp
  · rw [heq]; simp
  · rw [heq]; simp
  · rw [heq]; simp
  · rw [heq]; simp
  · intro t r' ms j hj hlen
    have hrun := cooldown_idle_run (ms.take j) t (Backtest.handle_result s mult r).1 r'
      (by rw [heq]; simp) (by rw [heq]; simp) (by rw [heq]; simp)
      (by rw [hcd, List.length_take]; omega)
    exact hrun.1

/-- **C2 (witness).**  A waiting bet at `totalWins = 1` under Scenario D wins
on outcome `2.5`: the win counter resets, the cooldown is 5, and the following
four outcomes leave the strategy idle. -/
theorem C2_witness :
    (Backtest.handle_result stateFresh (5/2) 12).1.total_wins = 0 ∧
    (Backtest.handle_result stateFresh (5/2) 12).1.cooldown_remaining = 5 ∧
    (Backtest.btRun initTracker (Backtest.handle_result stateFresh (5/2) 12).1 13
      ([1, 1, 1, 1].take 4)).2.waiting_for_result = false := by
  have h := C2_stop_profit_win_cooldown stateFresh (5/2) 12
    (by decide) (by decide) (by decide) (by decide)
  exact ⟨h.1, h.2.1.trans (by decide),
    h.2.2.2.2.2.2 initTracker 13 [1, 1, 1, 1] 4 (by decide) (by decide)⟩

/-! ### C9 — `dead_ass_chain` can never trigger activation -/

/-- **C9.**  For every betting-state configuration,
`should_activate_on_signal "dead_ass_chain"` is `false` (the mapping hard-wires
it), while `possible_chain`, `rule_of_17` and `pre_streak` are controlled by
their respective configuration flags. -/
theorem C9_dead_ass_chain_never_activates (s : SimulationState) :
    s.should_activate_on_signal "dead_ass_chain" = false ∧
    s.should_activate_on_signal "possible_chain" = s.config.activate_on_possible_chain ∧
    s.should_activate_on_signal "rule_of_17" = s.config.activate_on_rule_of_17 ∧
    s.should_activate_on_signal "pre_streak" = s.config.activate_on_pre_streak_pattern :=
  ⟨rfl, rfl, rfl, rfl⟩

/-! ### C10 — window-loss stop requires a full outcome window -/

/-- `record_outcome` keeps the configuration and grows the outcome queue by at
most one element. -/
theorem record_outcome_length (s : SimulationState) (o : String) :
    (s.record_outcome o).config = s.config ∧
    (s.record_outcome o).recent_outcomes.length ≤ s.recent_outcomes.length + 1 := by
  refine ⟨rfl, ?_⟩
  simp only [SimulationState.record_outcome]
  split <;> simp

/-- Folding `record_outcome` keeps the configuration and grows the outcome
queue by at most the number of recorded outcomes. -/
theorem foldl_record_outcome_length (outs : List String) : ∀ (s : SimulationState),
    (outs.foldl SimulationState.record_outcome s).config = s.config ∧
    (outs.foldl SimulationState.record_outcome s).recent_outcomes.length
      ≤ s.recent_outcomes.length + outs.length := by
  induction outs with
  | nil => intro s; simp
  | cons o os ih =>
    intro s
    have h1 := ih (s.record_outcome o)
    have h2 := record_outcome_length s o
    refine ⟨?_, ?_⟩
    · rw [List.foldl_cons, h1.1, h2.1]
    · rw [List.foldl_cons]
      calc (os.foldl SimulationState.record_outcome (s.record_outcome o)).recent_outcomes.length
          ≤ (s.record_outcome o).recent_outcomes.length + os.length := h1.2
        _ ≤ s.recent_outcomes.length + 1 + os.length := by have := h2.2; omega
        _ = s.recent_outcomes.length + (o :: os).length := by
            rw [List.length_cons]; omega

/-- **C10.**  `should_stop_for_window_losses` is `false` whenever fewer than
`loss_check_window` outcomes are recorded; consequently, starting from a full
reset (which clears `recent_outcomes`), recording fewer than
`loss_check_window` outcomes — wins or losses — can never trip the window-loss
stop, regardless of `max_losses_in_window`. -/
theorem C10_window_stop_needs_full_window (s : SimulationState) (outs : List String) :
    (s.recent_outcomes.length < s.config.loss_check_window →
      s.should_stop_for_window_losses = false) ∧
    (outs.length < s.config.loss_check_window →
      (outs.foldl SimulationState.record_outcome s.full_reset).should_stop_for_window_losses
        = false) := by
  constructor
  · intro h
    simp [SimulationState.should_stop_for_window_losses, h]
  · intro h
    have hf := foldl_record_outcome_length outs s.full_reset
    have hcfg : s.full_reset.config = s.config := rfl
    have h0 : s.full_reset.recent_outcomes.length = 0 := rfl
    have hlen : (outs.foldl SimulationState.record_outcome s.full_reset).recent_outcomes.length
        < (outs.foldl SimulationState.record_outcome s.full_reset).config.loss_check_window := by
      rw [hf.1, hcfg]
      omega
    simp [SimulationState.should_stop_for_window_losses, hlen]

/-- **C10 (witness).**  With the default window of 10, two recorded losses
after a full reset cannot trip the window-loss stop. -/
theorem C10_witness :
    (["loss", "loss"].foldl SimulationState.record_outcome
      (initState {}).full_reset).should_stop_for_window_losses = false :=
  (C10_window_stop_needs_full_window (initState {}) ["loss", "loss"]).2 (by decide)

end CrasherBot
